import Mathlib

/-!
Verification of the sentinel-brain risk-signal engine.

Shallow embedding of the Python sources under
`packages/sentinel-brain/src/sentinel_brain/`.  Python floats are modelled
as exact rationals (`ℚ`), Python ints as `ℤ`/`ℕ`, Python strings as
`String`, Python `list` as `List`.  Each definition mirrors one Python
function or dataclass and is named after it.
-/

namespace SentinelBrain

/-! ## Feature records (features/extractors/*.py, features/aggregator.py) -/

/-- `FlashLoanFeatures` dataclass from `features/extractors/flash_loan.py`. -/
structure FlashLoanFeatures where
  has_flash_loan : Bool
  flash_loan_count : ℕ
  flash_loan_providers : List String
  flash_loan_amounts : List ℤ
  total_borrowed : ℤ
  has_callback : Bool
  callback_selectors : List String
  nested_flash_loans : Bool
  repayment_detected : Bool
deriving DecidableEq, Repr

/-- `FlashLoanFeatures.to_vector` (8 entries). -/
def FlashLoanFeatures.to_vector (f : FlashLoanFeatures) : List ℚ :=
  [ if f.has_flash_loan then 1 else 0,
    (f.flash_loan_count : ℚ),
    (f.flash_loan_providers.length : ℚ),
    if f.total_borrowed > 0 then (f.total_borrowed : ℚ) / 1000000000000000000 else 0,
    if f.has_callback then 1 else 0,
    (f.callback_selectors.length : ℚ),
    if f.nested_flash_loans then 1 else 0,
    if f.repayment_detected then 1 else 0 ]

/-- `StateVarianceFeatures` dataclass from `features/extractors/state_variance.py`. -/
structure StateVarianceFeatures where
  total_storage_changes : ℕ
  unique_contracts_modified : ℕ
  unique_slots_modified : ℕ
  balance_slot_changes : ℕ
  large_value_changes : ℕ
  max_value_delta : ℤ
  avg_value_delta : ℚ
  variance_ratio : ℚ
  zero_to_nonzero : ℕ
  nonzero_to_zero : ℕ
deriving DecidableEq, Repr

/-- `StateVarianceFeatures.to_vector` (10 entries). -/
def StateVarianceFeatures.to_vector (f : StateVarianceFeatures) : List ℚ :=
  [ (f.total_storage_changes : ℚ),
    (f.unique_contracts_modified : ℚ),
    (f.unique_slots_modified : ℚ),
    (f.balance_slot_changes : ℚ),
    (f.large_value_changes : ℚ),
    if f.max_value_delta > 0 then (f.max_value_delta : ℚ) / 1000000000000000000 else 0,
    if f.avg_value_delta > 0 then f.avg_value_delta / 1000000000000000000 else 0,
    f.variance_ratio,
    (f.zero_to_nonzero : ℚ),
    (f.nonzero_to_zero : ℚ) ]

/-- `BytecodeFeatures` dataclass from `features/extractors/bytecode.py`. -/
structure BytecodeFeatures where
  bytecode_length : ℕ
  bytecode_hash : String
  is_contract : Bool
  is_proxy : Bool
  proxy_type : Option String
  contract_age_blocks : ℤ
  is_verified : Bool
  matches_known_exploit : Bool
  matched_exploit_id : Option String
  jaccard_similarity : ℚ
  has_selfdestruct : Bool
  has_delegatecall : Bool
  has_create2 : Bool
  unique_opcodes : ℕ
deriving DecidableEq, Repr

/-- `BytecodeFeatures.to_vector` (11 entries). -/
def BytecodeFeatures.to_vector (f : BytecodeFeatures) : List ℚ :=
  [ (f.bytecode_length : ℚ),
    if f.is_contract then 1 else 0,
    if f.is_proxy then 1 else 0,
    (f.contract_age_blocks : ℚ),
    if f.is_verified then 1 else 0,
    if f.matches_known_exploit then 1 else 0,
    f.jaccard_similarity,
    if f.has_selfdestruct then 1 else 0,
    if f.has_delegatecall then 1 else 0,
    if f.has_create2 then 1 else 0,
    (f.unique_opcodes : ℚ) ]

/-- `OpcodeFeatures` dataclass from `features/extractors/opcode.py`
(the `opcode_frequency` dict defaults to empty and does not enter the
vector; it is omitted). -/
structure OpcodeFeatures where
  total_calls : ℕ
  call_depth : ℕ
  delegatecall_count : ℕ
  staticcall_count : ℕ
  create_count : ℕ
  create2_count : ℕ
  selfdestruct_count : ℕ
  call_count : ℕ
  internal_calls : ℕ
  external_calls : ℕ
  unique_call_types : ℕ
  call_value_transfers : ℕ
  gas_forwarded_ratio : ℚ
  revert_count : ℕ
deriving DecidableEq, Repr

/-- `OpcodeFeatures.to_vector` (14 entries). -/
def OpcodeFeatures.to_vector (f : OpcodeFeatures) : List ℚ :=
  [ (f.total_calls : ℚ),
    (f.call_depth : ℚ),
    (f.delegatecall_count : ℚ),
    (f.staticcall_count : ℚ),
    (f.create_count : ℚ),
    (f.create2_count : ℚ),
    (f.selfdestruct_count : ℚ),
    (f.call_count : ℚ),
    (f.internal_calls : ℚ),
    (f.external_calls : ℚ),
    (f.unique_call_types : ℚ),
    (f.call_value_transfers : ℚ),
    f.gas_forwarded_ratio,
    (f.revert_count : ℚ) ]

/-- `AggregatedFeatures` dataclass from `features/aggregator.py` (the
`metadata` dict enters no claim-relevant computation and is omitted). -/
structure AggregatedFeatures where
  flash_loan : FlashLoanFeatures
  state_variance : StateVarianceFeatures
  bytecode : BytecodeFeatures
  opcode : OpcodeFeatures
deriving DecidableEq, Repr

/-- `AggregatedFeatures.to_vector`: concatenation of the four sub-vectors. -/
def AggregatedFeatures.to_vector (f : AggregatedFeatures) : List ℚ :=
  f.flash_loan.to_vector ++ f.state_variance.to_vector ++
    f.bytecode.to_vector ++ f.opcode.to_vector

/-- `AggregatedFeatures.feature_names` (a property independent of the
instance in the source). -/
def featureNames : List String :=
  [ "fl_has_flash_loan", "fl_count", "fl_provider_count", "fl_total_borrowed",
    "fl_has_callback", "fl_callback_count", "fl_nested", "fl_repayment",
    "sv_storage_changes", "sv_contracts_modified", "sv_slots_modified",
    "sv_balance_changes", "sv_large_changes", "sv_max_delta", "sv_avg_delta",
    "sv_variance_ratio", "sv_zero_to_nonzero", "sv_nonzero_to_zero",
    "bc_length", "bc_is_contract", "bc_is_proxy", "bc_age_blocks",
    "bc_is_verified", "bc_matches_exploit", "bc_jaccard", "bc_has_selfdestruct",
    "bc_has_delegatecall", "bc_has_create2", "bc_unique_opcodes",
    "op_total_calls", "op_call_depth", "op_delegatecall", "op_staticcall",
    "op_create", "op_create2", "op_selfdestruct", "op_call",
    "op_internal_calls", "op_external_calls", "op_unique_types",
    "op_value_transfers", "op_gas_ratio", "op_revert_count" ]

/-! ## Pending transactions (data/collectors/mempool_listener.py) -/

/-- `PendingTransaction` dataclass. -/
structure PendingTransaction where
  hash : String
  from_address : String
  to_address : Option String
  value : ℤ
  gas : ℕ
  gas_price : ℕ
  max_fee_per_gas : Option ℕ
  max_priority_fee_per_gas : Option ℕ
  input_data : String
  nonce : ℕ
  chain_id : Option ℕ
deriving DecidableEq, Repr

/-- `PendingTransaction.is_contract_interaction`:
`to` present and `len(input_data) > 2`. -/
def PendingTransaction.is_contract_interaction (tx : PendingTransaction) : Bool :=
  tx.to_address.isSome && tx.input_data.length > 2

/-- `PendingTransaction.is_contract_creation`:
`to` absent and `len(input_data) > 2`. -/
def PendingTransaction.is_contract_creation (tx : PendingTransaction) : Bool :=
  tx.to_address.isNone && tx.input_data.length > 2

/-- `PendingTransaction.is_simple_transfer`: the source tests only that the
input calldata is empty (`"0x"` or `""`); it does not look at `to`. -/
def PendingTransaction.is_simple_transfer (tx : PendingTransaction) : Bool :=
  tx.input_data == "0x" || tx.input_data == ""

/-- Modelled from the spec: the derived predicate *is simple transfer* as
§3 words it, "`to` present and input empty" (for comparison with the
source's `is_simple_transfer`). -/
def specIsSimpleTransfer (tx : PendingTransaction) : Bool :=
  tx.to_address.isSome && (tx.input_data == "0x" || tx.input_data == "")

/-- `PendingTransaction.selector`: first ten hex characters of the input
when present. -/
def PendingTransaction.selector (tx : PendingTransaction) : Option String :=
  if tx.input_data.length ≥ 10 then some (tx.input_data.take 10) else none

/-! ## Heuristic filter (models/heuristics.py) -/

/-- `FilterResult` enum from `models/heuristics.py`. -/
inductive FilterResult where
  | SAFE
  | SUSPICIOUS
  | UNKNOWN
deriving DecidableEq, Repr

/-- `HeuristicResult` dataclass. -/
structure HeuristicResult where
  result : FilterResult
  confidence : ℚ
  reasons : List String
  should_analyze : Bool
  risk_indicators : List String
deriving DecidableEq, Repr

/-- `SAFE_SELECTORS` module constant (a Python `set`, used only through
membership tests). -/
def safeSelectors : List String :=
  [ "0xa9059cbb", "0x23b872dd", "0x095ea7b3", "0x70a08231", "0x18160ddd",
    "0xdd62ed3e", "0x313ce567", "0x06fdde03", "0x95d89b41", "0x40c10f19",
    "0x42842e0e", "0xb88d4fde", "0x6352211e", "0xe985e9c5", "0xa22cb465" ]

/-- `SUSPICIOUS_SELECTORS` module constant. -/
def suspiciousSelectors : List String :=
  [ "0x5cffe9de", "0xab9c4b5d", "0xc1a8a1f5", "0x490e6cbc", "0x9c3f1e90",
    "0x022c0d9f", "0x128acb08", "0x7c025200", "0x12aa3caf", "0xe449022e",
    "0x0502b1c5", "0xb6f9de95", "0x791ac947" ]

/-- `WHITELISTED_CONTRACTS` module constant (already lower-case in the
source; the constructor lower-cases them again). -/
def whitelistedContracts : List String :=
  [ "0xc02aaa39b223fe8d0a0e5c4f27ead9083c756cc2",
    "0xa0b86991c6218b36c1d19d4a2e9eb0ce3606eb48",
    "0xdac17f958d2ee523a2206206994597c13d831ec7",
    "0x6b175474e89094c44da98b954eedeac495271d0f",
    "0x7d2768de32b0b80b7a3454c06bdac94a69ddc7a9",
    "0x87870bca3f3fd6335c3f4ce8392d69350b4fa4e2",
    "0x7a250d5630b4cf539739df2c5dacb4c659f2488d",
    "0xe592427a0aece92de3edee1f18e0157c05861564",
    "0x68b3465833fb72a70ecdf485e0e4c7bd8665fc45",
    "0xba12222222228d8ba445958a75a0704d566bf2c8",
    "0xdef1c0ded9bec7f1a1670819833240f027b25eff",
    "0x1111111254eeb25477b68fb85ed929f73a960582" ]

/-- Python `str.lower()` (ASCII per-character lowercase), written on the
character list so the kernel can evaluate it. -/
def pyLower (s : String) : String := ⟨s.data.map Char.toLower⟩

/-- `HeuristicFilter.__init__` default `max_safe_gas`. -/
def maxSafeGas : ℕ := 100000

/-- `HeuristicFilter.__init__` default `min_suspicious_value`. -/
def minSuspiciousValue : ℤ := 1000000000000000000

/-- The `reasons` list accumulated by `HeuristicFilter.filter`, in check
order. -/
def pendingReasons (tx : PendingTransaction) : List String :=
  (if tx.gas < maxSafeGas && tx.value == 0 then ["low_gas_no_value"] else []) ++
  (if tx.to_address.elim false (fun a => pyLower a ∈ whitelistedContracts)
    then ["whitelisted_contract"] else []) ++
  (match tx.selector with
    | some sel => if sel ∈ safeSelectors then ["safe_selector"] else []
    | none => [])

/-- The `risk_indicators` list accumulated by `HeuristicFilter.filter`,
in check order. -/
def pendingRiskIndicators (tx : PendingTransaction) : List String :=
  (match tx.selector with
    | some sel =>
      if sel ∈ safeSelectors then []
      else if sel ∈ suspiciousSelectors then ["suspicious_selector"] else []
    | none => []) ++
  (if tx.is_contract_creation then ["contract_creation"] else []) ++
  (if tx.value ≥ minSuspiciousValue then ["large_value_transfer"] else []) ++
  (if tx.gas > 1000000 then ["high_gas_limit"] else [])

/-- `HeuristicFilter.filter` on a pending transaction, at the default
constructor arguments (as built by the engines). -/
def heuristicFilterPending (tx : PendingTransaction) : HeuristicResult :=
  if tx.is_simple_transfer then
    { result := .SAFE, confidence := 99/100, reasons := ["simple_eth_transfer"],
      should_analyze := false, risk_indicators := [] }
  else
    let reasons := pendingReasons tx
    let risk_indicators := pendingRiskIndicators tx
    if reasons.length ≥ 2 && risk_indicators.isEmpty then
      { result := .SAFE, confidence := 9/10, reasons := reasons,
        should_analyze := false, risk_indicators := [] }
    else if risk_indicators.length ≥ 2 then
      { result := .SUSPICIOUS, confidence := 7/10, reasons := reasons,
        should_analyze := true, risk_indicators := risk_indicators }
    else
      { result := .UNKNOWN, confidence := 1/2, reasons := reasons,
        should_analyze := true, risk_indicators := risk_indicators }

/-- The risk indicators `filter_with_features` accumulates before its
`matches_known_exploit` test, in check order (the flash-loan block nests
three further checks under the flash-loan check exactly as the source
does). -/
def heuristicIndicatorsPre (f : AggregatedFeatures) : List String :=
  let hasLargeChanges := f.state_variance.large_value_changes > 3
  let hasManyTransfers := f.state_variance.total_storage_changes > 10
  let hasHighValue := f.state_variance.max_value_delta > 10000000000000000000000
  (if f.flash_loan.has_flash_loan then
    ["flash_loan_detected"] ++
    (if f.flash_loan.nested_flash_loans then ["nested_flash_loans"] else []) ++
    (if f.flash_loan.total_borrowed > 1000000000000000000000000 then ["large_flash_loan"] else []) ++
    (if hasLargeChanges || hasManyTransfers || hasHighValue
      then ["flash_loan_with_complex_activity"] else [])
  else []) ++
  (if f.state_variance.variance_ratio > 1/2 then ["high_state_variance"] else []) ++
  (if hasLargeChanges then ["multiple_large_changes"] else []) ++
  (if hasHighValue then ["extreme_value_movement"] else [])

/-- The risk indicators `filter_with_features` accumulates after the
`matches_known_exploit` test (reached only when that test is false), in
check order. -/
def heuristicIndicatorsPost (f : AggregatedFeatures) : List String :=
  (if f.bytecode.jaccard_similarity > 7/10 then ["high_bytecode_similarity"] else []) ++
  (if f.bytecode.contract_age_blocks < 100 then ["new_contract"] else []) ++
  (if f.bytecode.has_selfdestruct then ["selfdestruct_opcode"] else []) ++
  (if f.opcode.delegatecall_count > 0 then ["uses_delegatecall"] else []) ++
  (if f.opcode.create2_count > 0 then ["uses_create2"] else []) ++
  (if f.opcode.call_depth > 10 then ["deep_call_stack"] else []) ++
  (if f.opcode.total_calls > 50 then ["high_call_count"] else [])

/-- `HeuristicFilter.filter_with_features`.  The risk-indicator list is
accumulated by the same sequence of conditional appends as the source
(split here into the part before and after the exploit test); the
`matches_known_exploit` test short-circuits exactly where the source
returns early. -/
def filterWithFeatures (f : AggregatedFeatures) : HeuristicResult :=
  let ind3 := heuristicIndicatorsPre f
  if f.bytecode.matches_known_exploit then
    { result := .SUSPICIOUS, confidence := 95/100, reasons := [],
      should_analyze := true,
      risk_indicators := ind3 ++ ["matches_known_exploit"] }
  else
    let ind10 := ind3 ++ heuristicIndicatorsPost f
    if ind10.length = 0 then
      { result := .SAFE, confidence := 8/10, reasons := ["no_risk_indicators"],
        should_analyze := false, risk_indicators := [] }
    else if ind10.length ≥ 3 then
      { result := .SUSPICIOUS,
        confidence := min (1/2 + (ind10.length : ℚ) * (1/10)) (95/100),
        reasons := [], should_analyze := true, risk_indicators := ind10 }
    else
      { result := .UNKNOWN, confidence := 1/2, reasons := [],
        should_analyze := true, risk_indicators := ind10 }

/-! ## Anomaly detector (models/isolation_forest.py) -/

/-- `DetectionResult` dataclass (feature contributions enter no claim and
are omitted). -/
structure DetectionResult where
  anomaly_score : ℚ
  is_anomaly : Bool
  confidence : ℚ
  threshold : ℚ
deriving DecidableEq, Repr

/-- `IsolationForestDetector.__init__` default `threshold`. -/
def detectorDefaultThreshold : ℚ := 65/100

/-- `IsolationForestDetector._normalize_score`:
`max(0.0, min(1.0, 0.5 - raw_score / 2))`. -/
def normalizeScore (raw : ℚ) : ℚ := max 0 (min 1 (1/2 - raw / 2))

/-- `IsolationForestDetector._calculate_confidence`:
`min(0.5 + |score - threshold|, 1.0)`. -/
def calculateConfidence (threshold score : ℚ) : ℚ :=
  min (1/2 + |score - threshold|) 1

/-- `IsolationForestDetector.predict`.  The fitted artifact is abstracted
by its two functions: `scale` (the `StandardScaler.transform` of the
artifact) and `d` (the tree-ensemble's native `decision_function`); the
source composes them on the 43-entry feature vector. -/
def detectorPredict (scale : List ℚ → List ℚ) (d : List ℚ → ℚ)
    (threshold : ℚ) (f : AggregatedFeatures) : DetectionResult :=
  let x := scale f.to_vector
  let raw := d x
  let anomaly_score := normalizeScore raw
  { anomaly_score := anomaly_score,
    is_anomaly := anomaly_score ≥ threshold,
    confidence := calculateConfidence threshold anomaly_score,
    threshold := threshold }

/-- Modelled from the spec: `clip(v, lo, hi)` as §4.7 and §4.8 use it. -/
def specClip (v lo hi : ℚ) : ℚ := min hi (max lo v)

/-! ## Protocol filter (models/protocol_filter.py) -/

/-- `Protocol` enum. -/
inductive Protocol where
  | UNKNOWN | UNISWAP_V2 | UNISWAP_V3 | SUSHISWAP | CURVE | BALANCER
  | AAVE_V2 | AAVE_V3 | COMPOUND | MAKER | ONE_INCH | PARASWAP | COWSWAP
  | STARGATE | HOP | ACROSS | YEARN | CONVEX | LIDO
deriving DecidableEq, Repr

/-- `OperationType` enum. -/
inductive OperationType where
  | UNKNOWN | SWAP | ADD_LIQUIDITY | REMOVE_LIQUIDITY | DEPOSIT | WITHDRAW
  | BORROW | REPAY | LIQUIDATE | FLASH_LOAN_ARBITRAGE
  | FLASH_LOAN_COLLATERAL_SWAP | STAKE | UNSTAKE | CLAIM_REWARDS
  | GOVERNANCE | BRIDGE
deriving DecidableEq, Repr

/-- `ProtocolFilter._calculate_risk_adjustment`.  `is_known_protocol` and
`is_known_operation` are the two booleans `get_context` derives
(`protocol != UNKNOWN`, `operation != UNKNOWN`); `within_bounds` is the
boolean `check_bounds` computes; `has_flash_loan` is the feature field the
body reads (the `protocol` argument itself is unused in the source body
beyond `is_known_protocol`). -/
def calculateRiskAdjustment (operation : OperationType)
    (is_known_protocol is_known_operation within_bounds has_flash_loan : Bool) :
    ℚ :=
  let a0 : ℚ :=
    if is_known_protocol && is_known_operation then
      (-20/100) + (if within_bounds then -10/100 else 25/100)
    else if !is_known_protocol && !is_known_operation then 0
    else
      (if is_known_protocol then -5/100 else 0) +
      (if is_known_operation then -5/100 else 0)
  let a1 : ℚ :=
    if has_flash_loan &&
        !(operation ∈ [OperationType.FLASH_LOAN_ARBITRAGE,
                       OperationType.FLASH_LOAN_COLLATERAL_SWAP,
                       OperationType.LIQUIDATE]) then
      a0 + 35/100
    else a0
  let safeOperations : List OperationType :=
    [.SWAP, .ADD_LIQUIDITY, .DEPOSIT, .STAKE, .CLAIM_REWARDS, .GOVERNANCE]
  let a2 : ℚ :=
    if is_known_protocol && operation ∈ safeOperations &&
        within_bounds && !has_flash_loan then
      a1 - 10/100
    else a1
  max (-(1/2)) (min (1/2) a2)

/-- The score update in `ProtocolFilter.filter`:
`adjusted = max(0.0, min(1.0, original + adjustment * original))`. -/
def protocolFilterAdjustedScore (adjustment original : ℚ) : ℚ :=
  max 0 (min 1 (original + adjustment * original))

/-! ## Signal engine (inference/signal.py) -/

/-- `RiskLevel` enum. -/
inductive RiskLevel where
  | SAFE | LOW | MEDIUM | HIGH | CRITICAL
deriving DecidableEq, Repr

/-- The raw fused score of `SignalEngine._compute_risk`:
`heuristic_score = len(risk_indicators) / 10`, weighted `0.4/0.6` with the
detector score when a detector is present, and the returned value is
`min(risk_score, 1.0)`. -/
def computeRiskScore (heuristic : HeuristicResult)
    (ml : Option DetectionResult) : ℚ :=
  let heuristic_score : ℚ := (heuristic.risk_indicators.length : ℚ) / 10
  match ml with
  | some m => min (4/10 * heuristic_score + 6/10 * m.anomaly_score) 1
  | none => min heuristic_score 1

/-- The fused confidence of `SignalEngine._compute_risk`. -/
def computeRiskConfidence (heuristic : HeuristicResult)
    (ml : Option DetectionResult) : ℚ :=
  match ml with
  | some m => min (4/10 * heuristic.confidence + 6/10 * m.confidence) 1
  | none => min heuristic.confidence 1

/-- The pre-adjustment risk-level cascade of `SignalEngine._compute_risk`
(first match wins). -/
def computeRiskLevel (heuristic : HeuristicResult)
    (ml : Option DetectionResult) : RiskLevel :=
  if heuristic.result = .SUSPICIOUS ∧ heuristic.confidence > 9/10 then
    .CRITICAL
  else if heuristic.result = .SUSPICIOUS ∧ ml.elim false (·.is_anomaly) then
    .HIGH
  else if heuristic.result = .SUSPICIOUS then .MEDIUM
  else if ml.elim false (·.is_anomaly) then
    if ml.elim false (·.confidence > 7/10) then .MEDIUM else .LOW
  else if heuristic.risk_indicators.length ≥ 2 then .LOW
  else .SAFE

/-- Modelled from the spec (§4.9 step 4): the fused raw score as the spec
states it, `0.4 · (min(#indicators, 10)/10) + 0.6 · anomaly_score` with a
detector, else the heuristic term alone (for comparison with
`computeRiskScore`). -/
def specRawScore (heuristic : HeuristicResult)
    (ml : Option DetectionResult) : ℚ :=
  let heuristicTerm : ℚ := (min heuristic.risk_indicators.length 10 : ℕ) / 10
  match ml with
  | some m => 4/10 * heuristicTerm + 6/10 * m.anomaly_score
  | none => heuristicTerm

/-- `SignalEngine._score_to_level` (its `heuristic` and `ml_result`
arguments are unused in the source body and omitted here). -/
def scoreToLevel (risk_score : ℚ) : RiskLevel :=
  if risk_score ≥ 7/10 then .CRITICAL
  else if risk_score ≥ 1/2 then .HIGH
  else if risk_score ≥ 35/100 then .MEDIUM
  else if risk_score ≥ 1/5 then .LOW
  else .SAFE

/-- The risk level and adjusted score emitted by
`SignalEngine.analyze_async`: the cascade level and raw score from
`_compute_risk`, then — only when the engine was constructed with
`enable_protocol_filter=True` — the protocol-filter adjustment is applied
and the level is recomputed from the adjusted score via
`_score_to_level`.  The protocol-filter context is carried by its four
inputs to `_calculate_risk_adjustment` (see there). -/
def analyzeAsyncLevelScore (enable_protocol_filter : Bool)
    (heuristic : HeuristicResult) (ml : Option DetectionResult)
    (operation : OperationType)
    (is_known_protocol is_known_operation within_bounds : Bool)
    (has_flash_loan : Bool) : RiskLevel × ℚ :=
  let raw := computeRiskScore heuristic ml
  let level0 := computeRiskLevel heuristic ml
  if enable_protocol_filter then
    let adj := calculateRiskAdjustment operation is_known_protocol
      is_known_operation within_bounds has_flash_loan
    let adjusted := protocolFilterAdjustedScore adj raw
    (scoreToLevel adjusted, adjusted)
  else
    (level0, raw)

/-- The field names of the `RiskSignal` dataclass that have no default
value (every field except `model_version`), in declaration order; a
Python dataclass constructor call must supply each of them or raise
`TypeError`. -/
def riskSignalRequiredFields : List String :=
  [ "tx_hash", "timestamp", "risk_level", "risk_score", "confidence",
    "ml_score", "ml_confidence", "heuristic_result", "heuristic_confidence",
    "risk_indicators", "protocol", "operation", "raw_risk_score",
    "risk_adjustment", "has_flash_loan", "flash_loan_amount",
    "unique_contracts", "transfer_count", "max_value_delta", "call_depth",
    "recommended_action", "explanation", "latency_ms" ]

/-- The keyword arguments `SignalEngine.analyze` (the synchronous entry
point, signal.py lines 217–237) passes to the `RiskSignal` constructor. -/
def analyzeSyncSignalKwargs : List String :=
  [ "tx_hash", "timestamp", "risk_level", "risk_score", "confidence",
    "ml_score", "ml_confidence", "heuristic_result", "heuristic_confidence",
    "risk_indicators", "has_flash_loan", "flash_loan_amount",
    "unique_contracts", "transfer_count", "max_value_delta", "call_depth",
    "recommended_action", "explanation", "latency_ms" ]

/-- The keyword arguments `SignalEngine.analyze_async` passes to the
`RiskSignal` constructor. -/
def analyzeAsyncSignalKwargs : List String :=
  [ "tx_hash", "timestamp", "risk_level", "risk_score", "confidence",
    "ml_score", "ml_confidence", "heuristic_result", "heuristic_confidence",
    "risk_indicators", "protocol", "operation", "raw_risk_score",
    "risk_adjustment", "has_flash_loan", "flash_loan_amount",
    "unique_contracts", "transfer_count", "max_value_delta", "call_depth",
    "recommended_action", "explanation", "latency_ms" ]

/-- Python dataclass construction semantics: the call succeeds iff every
required (default-free) field receives an argument; otherwise the
interpreter raises `TypeError` before any object exists. -/
def dataclassCallSucceeds (required passed : List String) : Bool :=
  required.all (fun f => f ∈ passed)

/-! ## Executed traces (data/collectors/fork_replayer.py) -/

mutual

/-- `TraceCall` dataclass; the `children` list is encoded as a nested
inductive so the extractor's tree walk is structural recursion. -/
inductive TraceCall where
  | node (call_type from_address to_address : String) (value : ℤ)
      (gas gas_used : ℕ) (input_data output_data : String) (depth : ℕ)
      (children : TraceCallList)
deriving DecidableEq, Repr

/-- A list of `TraceCall` children. -/
inductive TraceCallList where
  | nil
  | cons (head : TraceCall) (tail : TraceCallList)
deriving DecidableEq, Repr

end

/-- `TraceLog` dataclass (topics kept as hex strings). -/
structure TraceLog where
  address : String
  topics : List String
  data : String
deriving DecidableEq, Repr

/-- `StorageChange` dataclass. -/
structure StorageChange where
  address : String
  slot : String
  previous_value : String
  new_value : String
deriving DecidableEq, Repr

/-- `TransactionTrace` dataclass (the `opcodes` count dict enters no
claim-relevant computation and is omitted). -/
structure TransactionTrace where
  tx_hash : String
  block_number : ℕ
  from_address : String
  to_address : Option String
  value : ℤ
  gas_used : ℕ
  gas_price : ℕ
  input_data : String
  status : Bool
  logs : List TraceLog
  call_trace : Option TraceCall
  storage_changes : List StorageChange
  contracts_called : List String
  created_contracts : List String
  selfdestruct_contracts : List String
deriving DecidableEq, Repr

/-! ## Flash-loan extractor (features/extractors/flash_loan.py) -/

/-- Keys of `FLASH_LOAN_SIGNATURES`. -/
def flashLoanSigs : List String :=
  [ "0x5cffe9de", "0xab9c4b5d", "0xe0232b42", "0xc1a8a1f5",
    "0x490e6cbc", "0x9c3f1e90", "0xd9d98ce4", "0x35ea6a75" ]

/-- Keys of `CALLBACK_SIGNATURES`. -/
def callbackSigs : List String :=
  [ "0x23e30c8b", "0xee872558", "0x920f5c84", "0xfa461e33",
    "0x10d1e85c", "0x84800812" ]

/-- `FLASH_LOAN_PROVIDERS`, keys lower-cased as the constructor does. -/
def flashLoanProviders : List (String × String) :=
  [ ("0x7d2768de32b0b80b7a3454c06bdac94a69ddc7a9", "aave_v2"),
    ("0x87870bca3f3fd6335c3f4ce8392d69350b4fa4e2", "aave_v3"),
    ("0x5c69bee701ef814a2b6a3edd4b1652cb9cc5aa6f", "uniswap_v2"),
    ("0x1f98431c8ad98523631ae4a59f267346ea31f984", "uniswap_v3"),
    ("0xba12222222228d8ba445958a75a0704d566bf2c8", "balancer"),
    ("0x6bdc1fcb2f13d1ba9d26ccec3983d5d4bf318f57", "dydx"),
    ("0xc02aaa39b223fe8d0a0e5c4f27ead9083c756cc2", "weth") ]

/-- `FLASH_LOAN_EVENT_TOPICS`. -/
def flashLoanEventTopics : List (String × String) :=
  [ ("0x631042c832b07452973831137f2d73e395028b44b250dedc5abb0ee766e168ac",
     "aave_v2_flashloan"),
    ("0xefefaba5e921573100900a3ad9cf29f222d995fb3b6045797eaea7521f5de7a0",
     "aave_v3_flashloan"),
    ("0x0d7d75e01ab95780d3cd1c8ec0dd6c2ce19f3a05cdb8d28c4c21e1e1d2b0c92a",
     "balancer_flashloan"),
    ("0x76e3a82f8c87c7f3bd4c86ab5f5e2769efb99a8746b0a5c9b73d86db9d0af09e",
     "dydx_flashloan") ]

/-- Python `dict.get` on a string-keyed table. -/
def dictGet (table : List (String × String)) (key : String) : Option String :=
  (table.find? (fun kv => kv.1 == key)).map (·.2)

/-- Value of one hexadecimal digit, as Python `int(·, 16)` accepts it. -/
def hexDigitVal (c : Char) : Option ℕ :=
  if '0' ≤ c ∧ c ≤ '9' then some (c.toNat - 48)
  else if 'a' ≤ c ∧ c ≤ 'f' then some (c.toNat - 87)
  else if 'A' ≤ c ∧ c ≤ 'F' then some (c.toNat - 55)
  else none

/-- Python `int(s, 16)` on a plain digit string: `none` models the
`ValueError` the source catches (empty string or a non-hex character). -/
def hexToNat (s : String) : Option ℕ :=
  if s.isEmpty then none
  else s.data.foldl
    (fun acc c => acc.bind fun n => (hexDigitVal c).map fun v => n * 16 + v)
    (some 0)

/-- `FlashLoanExtractor._extract_amount_from_input`: the 32-byte word at
`input_data[10:74]` as a big-endian unsigned integer; malformed or short
input yields zero. -/
def extractAmountFromInput (input_data : String) : ℤ :=
  if input_data.length < 74 then 0
  else match hexToNat ((input_data.drop 10).take 64) with
    | some n => (n : ℤ)
    | none => 0

/-- `FlashLoanExtractor._extract_amount_from_log_data`. -/
def extractAmountFromLogData (data : String) : ℤ :=
  if data.length < 66 then 0
  else
    let amount_hex :=
      if data.startsWith "0x" then (data.drop 2).take 64 else data.take 64
    match hexToNat amount_hex with
    | some n => (n : ℤ)
    | none => 0

/-- One matched flash-loan call recorded by `_analyze_call_tree`. -/
structure FLCall where
  selector : String
  to_addr : String
  value : ℤ
  depth : ℕ
deriving DecidableEq, Repr

/-- The four accumulators `_analyze_call_tree` mutates.  `providers` is a
Python `set` in the source; it is modelled as a first-occurrence
insertion list (no claim depends on its iteration order). -/
structure FLAcc where
  flash_loan_calls : List FLCall
  callback_calls : List String
  providers : List String
  amounts : List ℤ
deriving DecidableEq, Repr

/-- `set.add`: first-occurrence insertion. -/
def setAdd (xs : List String) (s : String) : List String :=
  if s ∈ xs then xs else xs ++ [s]

mutual

/-- `FlashLoanExtractor._analyze_call_tree`: the node is examined first
(flash-loan selector, provider address, borrowed amount, callback
selector), then the children in order at `depth + 1`. -/
def analyzeCallTree (acc : FLAcc) (c : TraceCall) (depth : ℕ) : FLAcc :=
  match c with
  | .node _ct _from toAddr _v _g _gu inp _out _d children =>
    let sel := if inp.length ≥ 10 then inp.take 10 else ""
    let acc1 :=
      if sel ∈ flashLoanSigs then
        let a :=
          { acc with flash_loan_calls :=
              acc.flash_loan_calls ++ [⟨sel, toAddr, _v, depth⟩] }
        let b :=
          match dictGet flashLoanProviders (pyLower toAddr) with
          | some p => { a with providers := setAdd a.providers p }
          | none => a
        let amt := extractAmountFromInput inp
        if amt > 0 then { b with amounts := b.amounts ++ [amt] } else b
      else acc
    let acc2 :=
      if sel ∈ callbackSigs then
        { acc1 with callback_calls := acc1.callback_calls ++ [sel] }
      else acc1
    analyzeCallTreeList acc2 children (depth + 1)

/-- The `for child in call.children` loop of `_analyze_call_tree`. -/
def analyzeCallTreeList (acc : FLAcc) (cs : TraceCallList) (depth : ℕ) :
    FLAcc :=
  match cs with
  | .nil => acc
  | .cons c rest => analyzeCallTreeList (analyzeCallTree acc c depth) rest depth

end

/-- One entry of `_detect_flash_loans_from_logs`. -/
structure LogFlashLoan where
  provider : String
  amount : ℤ
  address : String
deriving DecidableEq, Repr

/-- `FlashLoanExtractor._detect_flash_loans_from_logs`. -/
def detectFlashLoansFromLogs (logs : List TraceLog) : List LogFlashLoan :=
  logs.filterMap fun log =>
    match log.topics with
    | [] => none
    | t0 :: _ =>
      (dictGet flashLoanEventTopics t0).map fun p =>
        ⟨p, extractAmountFromLogData log.data, log.address⟩

/-- `FlashLoanExtractor._detect_nested_flash_loans`: at least two matched
calls at more than one distinct depth. -/
def detectNestedFlashLoans (calls : List FLCall) : Bool :=
  if calls.length ≤ 1 then false
  else (calls.map (·.depth)).dedup.length > 1

mutual

/-- `FlashLoanExtractor._has_transfer_call`. -/
def hasTransferCall (c : TraceCall) : Bool :=
  match c with
  | .node _ct _from _to _v _g _gu inp _out _d children =>
    let sel := if inp.length ≥ 10 then inp.take 10 else ""
    (sel == "0xa9059cbb" || sel == "0x23b872dd") ||
      hasTransferCallList children

/-- The child loop of `_has_transfer_call`. -/
def hasTransferCallList (cs : TraceCallList) : Bool :=
  match cs with
  | .nil => false
  | .cons c rest => hasTransferCall c || hasTransferCallList rest

end

/-- `FlashLoanExtractor._detect_repayment`. -/
def detectRepayment (t : TransactionTrace) : Bool :=
  match t.call_trace with
  | none => false
  | some c => hasTransferCall c

/-- The ERC-20 `Transfer` topic0 of `_detect_repayment_from_logs`. -/
def transferTopic : String :=
  "0xddf252ad1be2c89b69c2b068fc378daa952ba7f163c4a11628f55a4df523b3ef"

/-- `FlashLoanExtractor._detect_repayment_from_logs`: at least two logs
whose topic0 is the ERC-20 Transfer topic. -/
def detectRepaymentFromLogs (logs : List TraceLog) : Bool :=
  (logs.countP fun log =>
    match log.topics with
    | [] => false
    | t0 :: _ => t0 == transferTopic) ≥ 2

/-- `FlashLoanExtractor.extract` on an executed trace. -/
def flashLoanExtract (t : TransactionTrace) : FlashLoanFeatures :=
  let acc :=
    match t.call_trace with
    | some c => analyzeCallTree ⟨[], [], [], []⟩ c 0
    | none => ⟨[], [], [], []⟩
  let logFLs := detectFlashLoansFromLogs t.logs
  let providers := logFLs.foldl (fun ps fl => setAdd ps fl.provider) acc.providers
  let amounts :=
    acc.amounts ++ (logFLs.filter (fun fl => fl.amount > 0)).map (·.amount)
  let input_selector :=
    if t.input_data.length ≥ 10 then t.input_data.take 10 else ""
  let has_flash_loan_input := input_selector ∈ flashLoanSigs
  let has_flash_loan :=
    !acc.flash_loan_calls.isEmpty || has_flash_loan_input || !logFLs.isEmpty
  { has_flash_loan := has_flash_loan,
    flash_loan_count := max acc.flash_loan_calls.length logFLs.length,
    flash_loan_providers := providers,
    flash_loan_amounts := amounts,
    total_borrowed := amounts.foldl (· + ·) 0,
    has_callback := !acc.callback_calls.isEmpty || has_flash_loan,
    callback_selectors := acc.callback_calls,
    nested_flash_loans := detectNestedFlashLoans acc.flash_loan_calls,
    repayment_detected :=
      detectRepayment t || detectRepaymentFromLogs t.logs }

/-! ## Inference engine indicator composition (inference/engine.py)

`InferenceEngine.analyze` deduplicates the two heuristic indicator lists
through `list(set(h1 + h2))`.  A CPython `set` iterates in hash-table
order: each string sits at slot `hash(s) % table_size` (table size 8 for
small sets) and iteration scans the slots in index order, where `hash` is
the interpreter's per-process seed-randomized string hash.  `pySetList`
models this with the reduced hash as an explicit `slot` parameter; when
two distinct strings collide CPython probes for another slot, which this
model replaces by keeping the first element per slot — the theorems below
only instantiate collision-free slot assignments, where the two coincide
exactly. -/

/-- `list(set(xs))` under the slot assignment `slot`: slot-order
iteration of the 8-slot table. -/
def pySetList (slot : String → ℕ) (xs : List String) : List String :=
  (List.range 8).filterMap fun i => xs.find? fun s => slot s % 8 == i

/-- First-occurrence deduplication in insertion order (what `list(set ·)`
would give if Python sets iterated in insertion order). -/
def insertionDedup (xs : List String) : List String :=
  xs.foldl (fun acc s => if s ∈ acc then acc else acc ++ [s]) []

/-- The concatenation `heuristic_result.risk_indicators +
heuristic_with_features.risk_indicators` that `InferenceEngine.analyze`
feeds to `set` (simulation disabled, so the feature record is the one
from `extract_from_pending`; it is passed here directly). -/
def engineCombinedIndicators (tx : PendingTransaction)
    (f : AggregatedFeatures) : List String :=
  (heuristicFilterPending tx).risk_indicators ++
    (filterWithFeatures f).risk_indicators

/-- The `risk_indicators` list of the `InferenceResult` built by
`InferenceEngine.analyze`: empty on the safe-filtered early return,
otherwise `list(set(h1 + h2))` followed by the appended simulation
tags. -/
def engineAllIndicators (slot : String → ℕ) (tx : PendingTransaction)
    (f : AggregatedFeatures)
    (simulation_timeout simulation_error : Bool) : List String :=
  let h := heuristicFilterPending tx
  if h.result = .SAFE ∧ h.should_analyze = false then []
  else
    pySetList slot (engineCombinedIndicators tx f) ++
      (if simulation_timeout then ["simulation_timeout"] else []) ++
      (if simulation_error then ["simulation_error"] else [])

/-- The fifteen indicator tags `filter_with_features` can append, in the
order its checks run. -/
def heuristicIndicatorOrder : List String :=
  [ "flash_loan_detected", "nested_flash_loans", "large_flash_loan",
    "flash_loan_with_complex_activity", "high_state_variance",
    "multiple_large_changes", "extreme_value_movement",
    "matches_known_exploit", "high_bytecode_similarity", "new_contract",
    "selfdestruct_opcode", "uses_delegatecall", "uses_create2",
    "deep_call_stack", "high_call_count" ]

/-- The four indicator tags the pending-transaction `filter` can append,
in the order its checks run. -/
def pendingIndicatorOrder : List String :=
  [ "suspicious_selector", "contract_creation", "large_value_transfer",
    "high_gas_limit" ]

/-! ## Concrete example inputs -/

/-- An all-absent flash-loan record. -/
def flNone : FlashLoanFeatures :=
  ⟨false, 0, [], [], 0, false, [], false, false⟩

/-- An all-zero state-variance record (the one `extract_from_pending`
fabricates). -/
def svZero : StateVarianceFeatures := ⟨0, 0, 0, 0, 0, 0, 0, 0, 0, 0⟩

/-- An empty bytecode record. -/
def bcEmpty : BytecodeFeatures :=
  ⟨0, "", false, false, none, 0, false, false, none, 0, false, false, false, 0⟩

/-- An all-zero opcode record. -/
def opZero : OpcodeFeatures := ⟨0, 0, 0, 0, 0, 0, 0, 0, 0, 0, 0, 0, 0, 0⟩

/-- A feature record whose bytecode matches a known exploit and which
fires no other heuristic check before the short-circuit. -/
def fExploitOnly : AggregatedFeatures :=
  { flash_loan := flNone, state_variance := svZero,
    bytecode := { bcEmpty with matches_known_exploit := true, contract_age_blocks := 500 },
    opcode := opZero }

/-- A feature record whose bytecode matches a known exploit while many
other checks fire too (flash loan, nested, deep stack). -/
def fExploitBusy : AggregatedFeatures :=
  { flash_loan := { flNone with has_flash_loan := true, nested_flash_loans := true },
    state_variance := { svZero with large_value_changes := 9 },
    bytecode := { bcEmpty with matches_known_exploit := true, has_selfdestruct := true },
    opcode := { opZero with call_depth := 20 } }

/-- A feature record that fires all fourteen non-exploit heuristic
checks, giving fourteen risk indicators. -/
def fAllIndicators : AggregatedFeatures :=
  { flash_loan := { flNone with has_flash_loan := true, nested_flash_loans := true, total_borrowed := 1000000000000000000000001 },
    state_variance := { svZero with large_value_changes := 4, total_storage_changes := 11, max_value_delta := 10000000000000000000001, variance_ratio := 6/10 },
    bytecode := { bcEmpty with jaccard_similarity := 8/10, contract_age_blocks := 5, has_selfdestruct := true },
    opcode := { opZero with delegatecall_count := 1, create2_count := 1, call_depth := 11, total_calls := 51 } }

/-- A feature record firing exactly the `flash_loan_detected` and
`new_contract` checks. -/
def fTwoIndicators : AggregatedFeatures :=
  { flash_loan := { flNone with has_flash_loan := true },
    state_variance := svZero,
    bytecode := { bcEmpty with contract_age_blocks := 5 },
    opcode := opZero }

/-- A detector result with anomaly score zero. -/
def mlZero : DetectionResult :=
  { anomaly_score := 0, is_anomaly := false, confidence := 1/2,
    threshold := 65/100 }

/-- A pending contract call that the pending heuristic filter classifies
UNKNOWN (one reason, no indicators), so `InferenceEngine.analyze`
proceeds past the safe-filter early return. -/
def txPlainCall : PendingTransaction :=
  { hash := "0xaaaa", from_address := "0xsender", to_address := some "0xdest",
    value := 0, gas := 50000, gas_price := 1, max_fee_per_gas := none,
    max_priority_fee_per_gas := none, input_data := "0xdeadbeef01",
    nonce := 0, chain_id := none }

/-- A pending transaction with `to` absent and empty input calldata. -/
def txNoToEmptyInput : PendingTransaction :=
  { hash := "0xbbbb", from_address := "0xsender", to_address := none,
    value := 5, gas := 21000, gas_price := 1, max_fee_per_gas := none,
    max_priority_fee_per_gas := none, input_data := "0x",
    nonce := 1, chain_id := none }

/-- A pending transaction with `to` present and empty input calldata. -/
def txPlainTransfer : PendingTransaction :=
  { hash := "0xcccc", from_address := "0xsender",
    to_address := some "0x1111111111111111111111111111111111111111",
    value := 1000000000000000000, gas := 21000, gas_price := 1, max_fee_per_gas := none,
    max_priority_fee_per_gas := none, input_data := "0x",
    nonce := 2, chain_id := none }

/-- A slot assignment (one possible seed-randomized string hash, reduced
mod 8) that stores `new_contract` at a lower slot than
`flash_loan_detected`. -/
def slotSwap (s : String) : ℕ :=
  if s = "flash_loan_detected" then 3 else if s = "new_contract" then 1 else 0

/-- A slot assignment that stores `flash_loan_detected` at a lower slot
than `new_contract`. -/
def slotKeep (s : String) : ℕ :=
  if s = "flash_loan_detected" then 1 else if s = "new_contract" then 3 else 0

/-- An executed trace whose outer input calldata carries the Aave
flash-loan selector but which has no call tree and no logs, so no
callback selector is ever recorded. -/
def trFlashNoCallback : TransactionTrace :=
  { tx_hash := "0xdddd", block_number := 100, from_address := "0xsender",
    to_address := some "0x7d2768de32b0b80b7a3454c06bdac94a69ddc7a9",
    value := 0, gas_used := 300000, gas_price := 1,
    input_data := "0x5cffe9de", status := true, logs := [],
    call_trace := none, storage_changes := [], contracts_called := [],
    created_contracts := [], selfdestruct_contracts := [] }

end SentinelBrain

namespace SentinelBrain

/-- C1: Every feature record serializes to a vector of length exactly 43,
assembled in the fixed four-block order (flash-loan 8, state-variance 10,
bytecode 11, opcode 14) matching the 43-entry feature-name sequence of the
artifact contract. -/
theorem C1_vector_shape (f : AggregatedFeatures) :
    f.to_vector.length = 43 ∧ featureNames.length = 43 ∧
    f.to_vector = f.flash_loan.to_vector ++ f.state_variance.to_vector ++
      f.bytecode.to_vector ++ f.opcode.to_vector ∧
    f.flash_loan.to_vector.length = 8 ∧ f.state_variance.to_vector.length = 10 ∧
    f.bytecode.to_vector.length = 11 ∧ f.opcode.to_vector.length = 14 := by
  refine ⟨?_, by decide, rfl, rfl, rfl, rfl, rfl⟩
  simp [AggregatedFeatures.to_vector, FlashLoanFeatures.to_vector,
    StateVarianceFeatures.to_vector, BytecodeFeatures.to_vector,
    OpcodeFeatures.to_vector]

/-- C2: the claim says `analyze` always returns one fully-formed signal.
The synchronous `SignalEngine.analyze` omits the four required
`RiskSignal` constructor arguments `protocol`, `operation`,
`raw_risk_score` and `risk_adjustment`, so its `RiskSignal(...)` call
raises `TypeError` on every input; the async variant passes all required
fields. -/
theorem C2_sync_analyze_cannot_build_signal :
    dataclassCallSucceeds riskSignalRequiredFields analyzeSyncSignalKwargs = false ∧
    "protocol" ∈ riskSignalRequiredFields ∧ "protocol" ∉ analyzeSyncSignalKwargs ∧
    "operation" ∈ riskSignalRequiredFields ∧ "operation" ∉ analyzeSyncSignalKwargs ∧
    "raw_risk_score" ∈ riskSignalRequiredFields ∧
    "raw_risk_score" ∉ analyzeSyncSignalKwargs ∧
    "risk_adjustment" ∈ riskSignalRequiredFields ∧
    "risk_adjustment" ∉ analyzeSyncSignalKwargs ∧
    dataclassCallSucceeds riskSignalRequiredFields analyzeAsyncSignalKwargs = true := by
  decide

/-- C7: whenever the bytecode sub-record has `matches_known_exploit`, the
heuristic filter short-circuits to SUSPICIOUS with confidence exactly
0.95 and `should_analyze` true, independent of all other indicators. -/
theorem C7_known_exploit_short_circuit (f : AggregatedFeatures)
    (h : f.bytecode.matches_known_exploit = true) :
    (filterWithFeatures f).result = FilterResult.SUSPICIOUS ∧
    (filterWithFeatures f).confidence = 95/100 ∧
    (filterWithFeatures f).should_analyze = true := by
  unfold filterWithFeatures
  rw [h]
  exact ⟨rfl, rfl, rfl⟩

/-- C7 witness: a feature record with a known-exploit match and four
other firing checks still gets SUSPICIOUS at confidence 0.95. -/
theorem C7_known_exploit_short_circuit_witness :
    fExploitBusy.bytecode.matches_known_exploit = true ∧
    ((filterWithFeatures fExploitBusy).result = FilterResult.SUSPICIOUS ∧
     (filterWithFeatures fExploitBusy).confidence = 95/100 ∧
     (filterWithFeatures fExploitBusy).should_analyze = true) :=
  ⟨by decide, C7_known_exploit_short_circuit fExploitBusy (by decide)⟩

/-- C8 counterexample: the claim's "if and only if" fails — a pending
transaction with `to` absent and empty input satisfies the source's
`is_simple_transfer` although the claimed predicate (`to` present and
input empty) is false. -/
theorem C8_counterexample :
    txNoToEmptyInput.is_simple_transfer = true ∧
    txNoToEmptyInput.to_address = none ∧
    specIsSimpleTransfer txNoToEmptyInput = false := by
  decide

/-- C8 amended: `is_simple_transfer` holds iff the input calldata is
empty (`"0x"` or `""`), with no condition on `to`; when `to` is present
it coincides with the spec's predicate. -/
theorem C8_amended_simple_transfer (tx : PendingTransaction) :
    (tx.is_simple_transfer =
      (tx.input_data == "0x" || tx.input_data == "")) ∧
    (tx.to_address.isSome = true →
      tx.is_simple_transfer = specIsSimpleTransfer tx) := by
  refine ⟨rfl, fun h => ?_⟩
  simp [PendingTransaction.is_simple_transfer, specIsSimpleTransfer, h]

/-- C8 amended witness: a plain transfer with `to` present, where the
source predicate and the spec predicate agree (both true). -/
theorem C8_amended_simple_transfer_witness :
    txPlainTransfer.to_address.isSome = true ∧
    txPlainTransfer.is_simple_transfer = specIsSimpleTransfer txPlainTransfer ∧
    txPlainTransfer.is_simple_transfer = true :=
  ⟨by decide, (C8_amended_simple_transfer txPlainTransfer).2 (by decide), by decide⟩

/-- C10: on every executed trace, the flash-loan extractor sets
`has_callback` whenever `has_flash_loan` is set (the source computes
`has_callback = bool(callback_calls) or has_flash_loan`). -/
theorem C10_flash_loan_implies_callback (t : TransactionTrace)
    (h : (flashLoanExtract t).has_flash_loan = true) :
    (flashLoanExtract t).has_callback = true := by
  unfold flashLoanExtract at h ⊢
  simp only at h ⊢
  rw [h]
  exact Bool.or_true _

/-- The two clamp spellings agree: `max lo (min hi v)` (the source's
`max(lo, min(hi, v))`) equals the spec's `clip(v, lo, hi)` for `lo = 0`,
`hi = 1`. -/
theorem clamp_eq_specClip (v : ℚ) : max 0 (min 1 v) = specClip v 0 1 := by
  unfold specClip
  rw [max_min_distrib_left]
  norm_num

/-- C3 counterexample: on a feature record with fourteen risk indicators
and a present detector scoring 0, the engine's fused raw score is
`min(0.4·(14/10) + 0, 1) = 0.56`, not the claimed
`0.4·(min(14,10)/10) + 0 = 0.4`. -/
theorem C3_counterexample :
    (filterWithFeatures fAllIndicators).risk_indicators.length = 14 ∧
    computeRiskScore (filterWithFeatures fAllIndicators) (some mlZero) = 14/25 ∧
    specRawScore (filterWithFeatures fAllIndicators) (some mlZero) = 2/5 ∧
    computeRiskScore (filterWithFeatures fAllIndicators) (some mlZero) ≠
      specRawScore (filterWithFeatures fAllIndicators) (some mlZero) := by
  have e1 : (filterWithFeatures fAllIndicators).risk_indicators.length = 14 := by
    norm_num [filterWithFeatures, heuristicIndicatorsPre, heuristicIndicatorsPost,
      fAllIndicators, flNone, svZero, bcEmpty, opZero]
  have e2 : computeRiskScore (filterWithFeatures fAllIndicators) (some mlZero)
      = 14/25 := by
    norm_num [filterWithFeatures, heuristicIndicatorsPre, heuristicIndicatorsPost,
      fAllIndicators, flNone, svZero, bcEmpty, opZero, computeRiskScore, mlZero,
      min_def]
  have e3 : specRawScore (filterWithFeatures fAllIndicators) (some mlZero)
      = 2/5 := by
    norm_num [filterWithFeatures, heuristicIndicatorsPre, heuristicIndicatorsPost,
      fAllIndicators, flNone, svZero, bcEmpty, opZero, specRawScore, mlZero,
      min_def]
  refine ⟨e1, e2, e3, ?_⟩
  rw [e2, e3]
  norm_num

/-- C3 amended: the code computes the heuristic term as
`#indicators/10` without the inner `min(·,10)` cap and instead caps the
whole fused sum at 1; the result is at most 1 in both cases, equals the
spec's formula whenever at most ten indicators fire (and always, when
the detector is absent), but differs above ten indicators. -/
theorem C3_amended_fused_score (heur : HeuristicResult) (m : DetectionResult) :
    computeRiskScore heur none ≤ 1 ∧
    computeRiskScore heur (some m) ≤ 1 ∧
    computeRiskScore heur none = specRawScore heur none ∧
    (heur.risk_indicators.length ≤ 10 → 0 ≤ m.anomaly_score →
      m.anomaly_score ≤ 1 →
      computeRiskScore heur (some m) = specRawScore heur (some m)) := by
  refine ⟨min_le_right _ _, min_le_right _ _, ?_, fun hn h0 h1 => ?_⟩
  · unfold computeRiskScore specRawScore
    simp only
    rw [Nat.cast_min, ← min_div_div_right (by norm_num : (0:ℚ) ≤ 10)]
    norm_num
  · unfold computeRiskScore specRawScore
    simp only
    have hn' : ((heur.risk_indicators.length : ℕ) : ℚ) ≤ 10 := by
      exact_mod_cast hn
    have hcap : 4/10 * ((heur.risk_indicators.length : ℚ) / 10) +
        6/10 * m.anomaly_score ≤ 1 := by
      nlinarith
    rw [min_eq_left hcap, Nat.min_eq_left hn]

/-- C3 amended witness: with two indicators and a zero-scoring detector,
the code's fused score coincides with the spec formula. -/
theorem C3_amended_fused_score_witness :
    (filterWithFeatures fTwoIndicators).risk_indicators.length ≤ 10 ∧
    0 ≤ mlZero.anomaly_score ∧ mlZero.anomaly_score ≤ 1 ∧
    computeRiskScore (filterWithFeatures fTwoIndicators) (some mlZero) =
      specRawScore (filterWithFeatures fTwoIndicators) (some mlZero) :=
  have hlen : (filterWithFeatures fTwoIndicators).risk_indicators.length ≤ 10 := by
    norm_num [filterWithFeatures, heuristicIndicatorsPre, heuristicIndicatorsPost,
      fTwoIndicators, flNone, svZero, bcEmpty, opZero]
  ⟨hlen, by norm_num [mlZero], by norm_num [mlZero],
    (C3_amended_fused_score (filterWithFeatures fTwoIndicators) mlZero).2.2.2
      hlen (by norm_num [mlZero]) (by norm_num [mlZero])⟩

/-- C4 counterexample: with the protocol filter disabled (a documented
engine configuration), `analyze_async` keeps the pre-adjustment cascade
level: a known-exploit heuristic (SUSPICIOUS at 0.95) with no detector
emits CRITICAL while its adjusted score 0.1 maps to SAFE in the claimed
table. -/
theorem C4_counterexample :
    (analyzeAsyncLevelScore false (filterWithFeatures fExploitOnly) none
      OperationType.UNKNOWN false false true false).1 = RiskLevel.CRITICAL ∧
    (analyzeAsyncLevelScore false (filterWithFeatures fExploitOnly) none
      OperationType.UNKNOWN false false true false).2 = 1/10 ∧
    scoreToLevel (1/10) = RiskLevel.SAFE ∧
    RiskLevel.CRITICAL ≠ RiskLevel.SAFE := by
  have hf : filterWithFeatures fExploitOnly =
      { result := .SUSPICIOUS, confidence := 95/100, reasons := [],
        should_analyze := true, risk_indicators := ["matches_known_exploit"] } := by
    norm_num [filterWithFeatures, heuristicIndicatorsPre, fExploitOnly,
      flNone, svZero, bcEmpty, opZero]
  refine ⟨?_, ?_, ?_, by decide⟩ <;>
    norm_num [hf, analyzeAsyncLevelScore, computeRiskScore, computeRiskLevel,
      scoreToLevel, min_def]

/-- C4 amended: when the engine is constructed with the protocol filter
enabled (the default), the emitted level is re-derived from the adjusted
score, and `_score_to_level` realizes exactly the claimed table
(≥ 0.70 CRITICAL, ≥ 0.50 HIGH, ≥ 0.35 MEDIUM, ≥ 0.20 LOW, else SAFE);
with the filter disabled the pre-adjustment cascade level is emitted
instead. -/
theorem C4_amended_score_to_level (heur : HeuristicResult)
    (ml : Option DetectionResult) (op : OperationType)
    (kp ko wb fl : Bool) (s : ℚ) :
    (analyzeAsyncLevelScore true heur ml op kp ko wb fl).1 =
      scoreToLevel (analyzeAsyncLevelScore true heur ml op kp ko wb fl).2 ∧
    (scoreToLevel s = RiskLevel.CRITICAL ↔ 7/10 ≤ s) ∧
    (scoreToLevel s = RiskLevel.HIGH ↔ 1/2 ≤ s ∧ s < 7/10) ∧
    (scoreToLevel s = RiskLevel.MEDIUM ↔ 35/100 ≤ s ∧ s < 1/2) ∧
    (scoreToLevel s = RiskLevel.LOW ↔ 1/5 ≤ s ∧ s < 35/100) ∧
    (scoreToLevel s = RiskLevel.SAFE ↔ s < 1/5) := by
  have hcases := lt_or_ge s (7/10)
  refine ⟨rfl, ?_, ?_, ?_, ?_, ?_⟩ <;>
    · constructor
      · intro h
        unfold scoreToLevel at h
        split_ifs at h with h1 h2 h3 h4 <;> push_neg at * <;>
          first
            | exact absurd h (by decide)
            | exact h1
            | exact ⟨by linarith, by linarith⟩
            | exact by linarith
      · intro h
        unfold scoreToLevel
        split_ifs with h1 h2 h3 h4 <;> push_neg at * <;>
          first
            | rfl
            | (exfalso; rcases h with ⟨ha, hb⟩; linarith)
            | (exfalso; linarith)

/-- C5: the protocol-filter risk adjustment is clamped into
[−0.5, +0.5] for every input; the engine applies it multiplicatively as
`adjusted = clip(raw + adjustment·raw, 0, 1)`, so any raw score in
[0, 1] yields an adjusted score in [0, 1]. -/
theorem C5_adjustment_bounds (op : OperationType) (kp ko wb fl : Bool)
    (raw : ℚ) :
    -(1/2) ≤ calculateRiskAdjustment op kp ko wb fl ∧
    calculateRiskAdjustment op kp ko wb fl ≤ 1/2 ∧
    protocolFilterAdjustedScore (calculateRiskAdjustment op kp ko wb fl) raw =
      specClip (raw + calculateRiskAdjustment op kp ko wb fl * raw) 0 1 ∧
    (0 ≤ raw → raw ≤ 1 →
      0 ≤ protocolFilterAdjustedScore
            (calculateRiskAdjustment op kp ko wb fl) raw ∧
      protocolFilterAdjustedScore
            (calculateRiskAdjustment op kp ko wb fl) raw ≤ 1) := by
  unfold calculateRiskAdjustment protocolFilterAdjustedScore
  exact ⟨le_max_left _ _, max_le (by norm_num) (min_le_left _ _),
    clamp_eq_specClip _, fun _ _ =>
      ⟨le_max_left _ _, max_le (by norm_num) (min_le_left _ _)⟩⟩

/-- C5 witness: a known swap within bounds at raw score 1/2 keeps the
adjusted score in [0, 1]. -/
theorem C5_adjustment_bounds_witness :
    (0:ℚ) ≤ 1/2 ∧ (1:ℚ)/2 ≤ 1 ∧
    (0 ≤ protocolFilterAdjustedScore
          (calculateRiskAdjustment OperationType.SWAP true true true false)
          (1/2) ∧
     protocolFilterAdjustedScore
          (calculateRiskAdjustment OperationType.SWAP true true true false)
          (1/2) ≤ 1) :=
  ⟨by norm_num, by norm_num,
    (C5_adjustment_bounds OperationType.SWAP true true true false
      (1/2)).2.2.2 (by norm_num) (by norm_num)⟩

/-- C9: for every artifact (standardizer `scale`, native decision
function `d`, threshold) and every feature record, the published score is
`clip(0.5 − d(x)/2, 0, 1)` on the standardized input, the anomaly flag
holds iff the score reaches the threshold, the confidence is
`min(0.5 + |score − threshold|, 1)`, and the constructor default
threshold is 0.65. -/
theorem C9_detector_contract (scale : List ℚ → List ℚ) (d : List ℚ → ℚ)
    (t : ℚ) (f : AggregatedFeatures) :
    (detectorPredict scale d t f).anomaly_score =
      specClip (1/2 - d (scale f.to_vector) / 2) 0 1 ∧
    ((detectorPredict scale d t f).is_anomaly = true ↔
      (detectorPredict scale d t f).anomaly_score ≥ t) ∧
    (detectorPredict scale d t f).confidence =
      min (1/2 + |(detectorPredict scale d t f).anomaly_score - t|) 1 ∧
    detectorDefaultThreshold = 65/100 := by
  refine ⟨clamp_eq_specClip _, ?_, rfl, rfl⟩
  unfold detectorPredict
  simp only [decide_eq_true_eq]

/-- The indicators accumulated before the exploit test appear in check
order: they form a sublist of the first seven tags. -/
theorem heuristicIndicatorsPre_sublist (f : AggregatedFeatures) :
    List.Sublist (heuristicIndicatorsPre f)
      ["flash_loan_detected", "nested_flash_loans", "large_flash_loan",
       "flash_loan_with_complex_activity", "high_state_variance",
       "multiple_large_changes", "extreme_value_movement"] := by
  unfold heuristicIndicatorsPre
  dsimp only
  repeat' split
  all_goals decide

/-- The indicators accumulated after the exploit test appear in check
order: they form a sublist of the last seven tags. -/
theorem heuristicIndicatorsPost_sublist (f : AggregatedFeatures) :
    List.Sublist (heuristicIndicatorsPost f)
      ["high_bytecode_similarity", "new_contract", "selfdestruct_opcode",
       "uses_delegatecall", "uses_create2", "deep_call_stack",
       "high_call_count"] := by
  unfold heuristicIndicatorsPost
  repeat' split
  all_goals decide

/-- The full feature-heuristic indicator list is a sublist of the
fifteen tags in check order. -/
theorem filterWithFeatures_indicators_sublist (f : AggregatedFeatures) :
    List.Sublist (filterWithFeatures f).risk_indicators
      heuristicIndicatorOrder := by
  unfold filterWithFeatures
  dsimp only
  split
  · exact List.Sublist.trans
      (List.Sublist.append (heuristicIndicatorsPre_sublist f)
        (List.Sublist.refl ["matches_known_exploit"]))
      (by decide)
  · split
    · exact List.nil_sublist _
    · split
      · exact List.Sublist.trans
          (List.Sublist.append (heuristicIndicatorsPre_sublist f)
            (heuristicIndicatorsPost_sublist f))
          (by decide)
      · exact List.Sublist.trans
          (List.Sublist.append (heuristicIndicatorsPre_sublist f)
            (heuristicIndicatorsPost_sublist f))
          (by decide)

/-- The pending-filter indicator accumulator is a sublist of its four
tags in check order. -/
theorem pendingRiskIndicators_sublist (tx : PendingTransaction) :
    List.Sublist (pendingRiskIndicators tx) pendingIndicatorOrder := by
  unfold pendingRiskIndicators
  repeat' split
  all_goals decide

/-- The pending filter's emitted indicator list is a sublist of its four
tags in check order. -/
theorem heuristicFilterPending_indicators_sublist (tx : PendingTransaction) :
    List.Sublist (heuristicFilterPending tx).risk_indicators
      pendingIndicatorOrder := by
  unfold heuristicFilterPending
  dsimp only
  repeat' split
  all_goals first
    | exact List.nil_sublist _
    | exact pendingRiskIndicators_sublist tx

/-- Every element the set model yields came from its input. -/
theorem mem_of_mem_pySetList {slot : String → ℕ} {xs : List String}
    {s : String} (h : s ∈ pySetList slot xs) : s ∈ xs := by
  unfold pySetList at h
  obtain ⟨i, -, hfind⟩ := List.mem_filterMap.mp h
  exact List.mem_of_find?_eq_some hfind

/-- The set model never yields duplicates (two distinct table slots hold
strings with distinct home slots). -/
theorem pySetList_nodup (slot : String → ℕ) (xs : List String) :
    (pySetList slot xs).Nodup := by
  unfold pySetList
  refine List.Nodup.filterMap ?_ (List.nodup_range 8)
  intro i i' b hb hb'
  have h1 := List.find?_some hb
  have h2 := List.find?_some hb'
  simp only [beq_iff_eq] at h1 h2
  omega

/-- Membership in the insertion-ordered dedup is membership in the
input. -/
theorem mem_insertionDedup {xs : List String} {s : String} :
    s ∈ insertionDedup xs ↔ s ∈ xs := by
  unfold insertionDedup
  suffices h : ∀ acc : List String,
      (s ∈ xs.foldl (fun acc s => if s ∈ acc then acc else acc ++ [s]) acc) ↔
        s ∈ acc ∨ s ∈ xs by simpa using h []
  induction xs with
  | nil => intro acc; simp
  | cons x rest ih =>
    intro acc
    rw [List.foldl_cons, ih]
    by_cases hx : x ∈ acc
    · simp only [if_pos hx, List.mem_cons]
      constructor
      · rintro (h | h)
        · exact Or.inl h
        · exact Or.inr (Or.inr h)
      · rintro (h | h | h)
        · exact Or.inl h
        · exact Or.inl (h ▸ hx)
        · exact Or.inr h
    · simp only [if_neg hx, List.mem_append, List.mem_singleton,
        List.mem_cons]
      tauto

/-- The insertion-ordered dedup is duplicate-free. -/
theorem insertionDedup_nodup (xs : List String) :
    (insertionDedup xs).Nodup := by
  unfold insertionDedup
  suffices h : ∀ acc : List String, acc.Nodup →
      (xs.foldl (fun acc s => if s ∈ acc then acc else acc ++ [s]) acc).Nodup
    from h [] List.nodup_nil
  induction xs with
  | nil => intro acc hacc; simpa using hacc
  | cons x rest ih =>
    intro acc hacc
    rw [List.foldl_cons]
    apply ih
    by_cases hx : x ∈ acc
    · simpa [hx] using hacc
    · rw [if_neg hx, List.nodup_append]
      exact ⟨hacc, List.nodup_singleton x, by simpa using fun h => hx h⟩

/-- When no two distinct input strings share a home slot (the regime
where the linear-probing model coincides with CPython), the set model
yields exactly the distinct input strings: a permutation of the
insertion-ordered dedup. -/
theorem pySetList_perm (slot : String → ℕ) (xs : List String)
    (hp : (insertionDedup xs).Pairwise fun a b => slot a % 8 ≠ slot b % 8) :
    (pySetList slot xs).Perm (insertionDedup xs) := by
  refine (List.perm_ext_iff_of_nodup (pySetList_nodup slot xs)
    (insertionDedup_nodup xs)).2 fun s => ?_
  constructor
  · intro h
    exact mem_insertionDedup.2 (mem_of_mem_pySetList h)
  · intro h
    have hs : s ∈ xs := mem_insertionDedup.1 h
    have hmod : slot s % 8 < 8 := Nat.mod_lt _ (by norm_num)
    have hsome : (xs.find? fun t => slot t % 8 == slot s % 8).isSome := by
      rw [List.find?_isSome]
      exact ⟨s, hs, by simp⟩
    obtain ⟨t, ht⟩ := Option.isSome_iff_exists.mp hsome
    have htx : t ∈ xs := List.mem_of_find?_eq_some ht
    have hteq : slot t % 8 = slot s % 8 := by
      simpa using List.find?_some ht
    have hsym : Symmetric fun a b : String => slot a % 8 ≠ slot b % 8 :=
      fun a b hab heq => hab heq.symm
    have hts : t = s := by
      by_contra hne
      exact List.Pairwise.forall hsym hp (mem_insertionDedup.2 htx)
        (mem_insertionDedup.2 hs) hne hteq
    subst hts
    unfold pySetList
    exact List.mem_filterMap.2 ⟨slot t % 8, by simpa using hmod, ht⟩

/-- The engine's composed indicator list has no duplicates, for every
slot assignment (hash seed), input and simulation outcome. -/
theorem engineAllIndicators_nodup (slot : String → ℕ)
    (tx : PendingTransaction) (f : AggregatedFeatures) (st se : Bool) :
    (engineAllIndicators slot tx f st se).Nodup := by
  unfold engineAllIndicators
  dsimp only
  split
  · exact List.nodup_nil
  · have hA := pySetList_nodup slot (engineCombinedIndicators tx f)
    have hmem : ∀ s ∈ pySetList slot (engineCombinedIndicators tx f),
        s ∈ pendingIndicatorOrder ∨ s ∈ heuristicIndicatorOrder := by
      intro s hsm
      have hin := mem_of_mem_pySetList hsm
      unfold engineCombinedIndicators at hin
      rcases List.mem_append.1 hin with h | h
      · exact Or.inl ((heuristicFilterPending_indicators_sublist tx).subset h)
      · exact Or.inr ((filterWithFeatures_indicators_sublist f).subset h)
    have hto : "simulation_timeout" ∉
        pySetList slot (engineCombinedIndicators tx f) := by
      intro hmem'
      rcases hmem _ hmem' with h | h <;> revert h <;> decide
    have her : "simulation_error" ∉
        pySetList slot (engineCombinedIndicators tx f) := by
      intro hmem'
      rcases hmem _ hmem' with h | h <;> revert h <;> decide
    cases st <;> cases se <;>
      simp_all [List.nodup_append, List.disjoint_left] <;>
      exact fun a ha => ⟨fun he => hto (he ▸ ha), fun he => her (he ▸ ha)⟩

/-- C6 amended: the indicator lists built by the heuristic checks are
duplicate-free and insertion-ordered (sublists of the fixed check-order
tag sequences), and the engine's composed list stays duplicate-free; but
`InferenceEngine.analyze` deduplicates through an unordered CPython set,
so the composed order follows the interpreter's seed-randomized string
hash (here the `slot` parameter), not the check order; under a
collision-free hash it is some permutation of the insertion-ordered
dedup. -/
theorem C6_amended_indicator_lists (slot : String → ℕ)
    (tx : PendingTransaction) (f : AggregatedFeatures) (st se : Bool) :
    List.Sublist (filterWithFeatures f).risk_indicators
      heuristicIndicatorOrder ∧
    (filterWithFeatures f).risk_indicators.Nodup ∧
    List.Sublist (heuristicFilterPending tx).risk_indicators
      pendingIndicatorOrder ∧
    (engineAllIndicators slot tx f st se).Nodup ∧
    ((insertionDedup (engineCombinedIndicators tx f)).Pairwise
        (fun a b => slot a % 8 ≠ slot b % 8) →
      (pySetList slot (engineCombinedIndicators tx f)).Perm
        (insertionDedup (engineCombinedIndicators tx f))) :=
  ⟨filterWithFeatures_indicators_sublist f,
   List.Nodup.sublist (filterWithFeatures_indicators_sublist f) (by decide),
   heuristicFilterPending_indicators_sublist tx,
   engineAllIndicators_nodup slot tx f st se,
   pySetList_perm slot (engineCombinedIndicators tx f)⟩

/-- C6 counterexample: at one concrete seed (slot assignment) the
engine emits the two indicators in the reverse of check order, at
another in check order — so the emitted order is not insertion order and
does not depend only on the order in which the checks run. -/
theorem C6_counterexample :
    engineAllIndicators slotSwap txPlainCall fTwoIndicators false false =
      ["new_contract", "flash_loan_detected"] ∧
    insertionDedup (engineCombinedIndicators txPlainCall fTwoIndicators) =
      ["flash_loan_detected", "new_contract"] ∧
    engineAllIndicators slotSwap txPlainCall fTwoIndicators false false ≠
      insertionDedup (engineCombinedIndicators txPlainCall fTwoIndicators) ∧
    engineAllIndicators slotKeep txPlainCall fTwoIndicators false false =
      ["flash_loan_detected", "new_contract"] := by
  have hp1 : (heuristicFilterPending txPlainCall).risk_indicators = [] := by
    decide
  have hp2 : (heuristicFilterPending txPlainCall).result =
      FilterResult.UNKNOWN := by decide
  have hp3 : (heuristicFilterPending txPlainCall).should_analyze = true := by
    decide
  have hf : (filterWithFeatures fTwoIndicators).risk_indicators =
      ["flash_loan_detected", "new_contract"] := by
    norm_num [filterWithFeatures, heuristicIndicatorsPre,
      heuristicIndicatorsPost, fTwoIndicators, flNone, svZero, bcEmpty, opZero]
  refine ⟨?_, ?_, ?_, ?_⟩ <;>
    · simp only [engineAllIndicators, engineCombinedIndicators, hp1, hp2,
        hp3, hf]
      decide

/-- C6 witness: at the collision-free slot assignment `slotKeep` the
composed list is a duplicate-free permutation of the insertion-ordered
dedup. -/
theorem C6_amended_indicator_lists_witness :
    (pySetList slotKeep
        (engineCombinedIndicators txPlainCall fTwoIndicators)).Perm
      (insertionDedup (engineCombinedIndicators txPlainCall fTwoIndicators)) ∧
    (engineAllIndicators slotKeep txPlainCall fTwoIndicators false false).Nodup := by
  have hp1 : (heuristicFilterPending txPlainCall).risk_indicators = [] := by
    decide
  have hf : (filterWithFeatures fTwoIndicators).risk_indicators =
      ["flash_loan_detected", "new_contract"] := by
    norm_num [filterWithFeatures, heuristicIndicatorsPre,
      heuristicIndicatorsPost, fTwoIndicators, flNone, svZero, bcEmpty, opZero]
  have hcomb : engineCombinedIndicators txPlainCall fTwoIndicators =
      ["flash_loan_detected", "new_contract"] := by
    simp [engineCombinedIndicators, hp1, hf]
  refine ⟨(C6_amended_indicator_lists slotKeep txPlainCall fTwoIndicators
      false false).2.2.2.2 ?_,
    (C6_amended_indicator_lists slotKeep txPlainCall fTwoIndicators
      false false).2.2.2.1⟩
  rw [hcomb]
  decide

/-- C10 witness: a trace whose outer calldata is a flash-loan selector,
with no call tree and no logs: the flash loan is detected, the
callback-selector list is empty, and `has_callback` is still true. -/
theorem C10_flash_loan_implies_callback_witness :
    (flashLoanExtract trFlashNoCallback).has_flash_loan = true ∧
    (flashLoanExtract trFlashNoCallback).callback_selectors = [] ∧
    (flashLoanExtract trFlashNoCallback).has_callback = true :=
  ⟨by decide, by decide,
    C10_flash_loan_implies_callback trFlashNoCallback (by decide)⟩

end SentinelBrain
